import Mathlib

/-
Verification of the LinearRAG service orchestration layer (`api/services.py`).

The service is shallowly embedded: the mutable singleton `LinearRAGService`
becomes an explicit `ServiceState` record threaded through each operation,
wall-clock timing is abstracted to the mere presence of the timing fields,
and the two fallible external calls of the query pipeline (the retrieval
engine's `retrieve` and the language model's `infer`) are passed in as
`Except`-valued outcomes, so that a Python exception in the external call
corresponds to an `Except.error` argument.  Result dictionaries whose key
sets differ between branches are embedded as records of `Option` fields
(`none` = key absent or key bound to Python `None`).
-/

/-! ## Answer parsing (services.py lines 265-271) -/

/-- The literal marker the generation response is split on
(`response.split('Answer:', 1)`). -/
def answerMarker : List Char := ("Answer:").data

/-- Python `str.strip()` on the character list: drop leading and trailing
whitespace. -/
def pyStrip (l : List Char) : List Char :=
  ((l.dropWhile Char.isWhitespace).reverse.dropWhile Char.isWhitespace).reverse

/-- First-occurrence split, the semantics of Python `s.split(pat, 1)` when it
yields two pieces: `some (pre, post)` iff `pat` occurs in `l`, where `pre` is
the text before the first occurrence and `post` the text after it. -/
def splitOnFirst (pat : List Char) : List Char → Option (List Char × List Char)
  | [] => none
  | c :: rest =>
    if pat.isPrefixOf (c :: rest) then
      some ([], (c :: rest).drop pat.length)
    else
      match splitOnFirst pat rest with
      | some (pre, post) => some (c :: pre, post)
      | none => none

/-- Whether `pat` occurs as a contiguous substring of `l`. -/
def containsSub (pat l : List Char) : Bool :=
  (List.range (l.length + 1)).any (fun i => pat.isPrefixOf (l.drop i))

/-- The parse of the raw LLM response (services.py lines 265-271): split on the
first `"Answer:"`; text before becomes `thought` (stripped), text after becomes
`answer` (stripped); if the marker is absent the unpacking raises `ValueError`,
the bare `except` catches it, `thought` becomes `""` and `answer` the whole
response stripped.  Returns `(thought, answer)`. -/
def parseResponse (response : String) : String × String :=
  match splitOnFirst answerMarker response.data with
  | some (pre, post) => (String.mk (pyStrip pre), String.mk (pyStrip post))
  | none => ("", String.mk (pyStrip response.data))

/-! ## Data model -/

/-- A constructed `SentenceTransformer` handle.  `uid` is the instrumentation
of object identity: each construction receives the value of the service's
construction counter, so two handles are the same instance iff they are equal
as records. -/
structure EmbModel where
  path : String
  uid : Nat
deriving DecidableEq

/-- A constructed `LLM_Model` handle, instrumented like `EmbModel`. -/
structure LLMModel where
  name : String
  uid : Nat
deriving DecidableEq

/-- The configuration record handed to the external retrieval engine
(the fields assembled in `initialize_config`, services.py lines 121-136). -/
structure LinearRAGConfig where
  dataset_name : String
  embedding_model : EmbModel
  spacy_model : String
  llm_model : LLMModel
  working_dir : String
  max_workers : Nat
  retrieval_top_k : Nat
  max_iterations : Nat
  top_k_sentence : Nat
  passage_ratio : ℚ
  passage_node_weight : ℚ
  damping : ℚ
  iteration_threshold : ℚ
  batch_size : Nat
deriving DecidableEq

/-- The external retrieval-engine instance, opaque except for the
configuration it was constructed with (`LinearRAG(global_config=config)`). -/
structure LinearRAG where
  global_config : Option LinearRAGConfig
deriving DecidableEq

/-- `ProgressInfo` (services.py lines 28-44).  `start_time` is an abstract
timestamp. -/
structure ProgressInfo where
  progress : ℚ
  current_step : String
  total_steps : Nat
  completed_steps : Nat
  message : String
  status : String
  start_time : Option Nat
  error : Option String
deriving DecidableEq

/-- The dataclass defaults of `ProgressInfo`. -/
def ProgressInfo.init : ProgressInfo :=
  { progress := 0, current_step := "", total_steps := 0, completed_steps := 0,
    message := "", status := "idle", start_time := none, error := none }

/-- The mutable fields of the `LinearRAGService` singleton (services.py
lines 60-71).  `embConstructCount` / `llmConstructCount` instrument how many
times `SentenceTransformer(...)` / `LLM_Model(...)` have been invoked. -/
structure ServiceState where
  progress : ProgressInfo
  _rag_model : Option LinearRAG
  _config : Option LinearRAGConfig
  _embedding_model : Option EmbModel
  _llm_model : Option LLMModel
  _current_dataset : Option String
  embConstructCount : Nat
  llmConstructCount : Nat
deriving DecidableEq

/-- The state produced by `__init__` on the first construction. -/
def initialService : ServiceState :=
  { progress := ProgressInfo.init, _rag_model := none, _config := none,
    _embedding_model := none, _llm_model := none, _current_dataset := none,
    embConstructCount := 0, llmConstructCount := 0 }

/-- One ranked retrieval result, as returned by the engine's `retrieve` for a
single query: parallel ordered lists of passages and scores. -/
structure RetrievalResult where
  sorted_passage : List String
  sorted_passage_scores : List ℚ
deriving DecidableEq

/-- One entry of `retrieved_documents` (services.py lines 235-239). -/
structure RetrievedDocument where
  content : String
  score : ℚ
  passage_id : String
deriving DecidableEq

/-- The dictionary returned by `query` (services.py lines 216-297), embedded
with `Option` fields since the three branches return different key sets:
`none` means the key is absent or bound to `None`.  The wall-clock timing
values are abstracted to presence (`Option Unit`). -/
structure QueryResult where
  success : Bool
  question : Option String
  answer : Option String
  thought : Option String
  retrieved_documents : List RetrievedDocument
  retrieval_time_ms : Option Unit
  llm_time_ms : Option Unit
  total_time_ms : Option Unit
  error : Option String
deriving DecidableEq

/-- The dictionary returned by `process_documents` (services.py lines 183-199),
again with `Option` fields for the branch-dependent keys. -/
structure RunResult where
  success : Bool
  documents_count : Option Nat
  dataset_name : Option String
  error : Option String
deriving DecidableEq

/-- The dictionary returned by `batch_query` (services.py lines 313-318). -/
structure BatchResult where
  success : Bool
  results : List QueryResult
  questions_count : Nat
deriving DecidableEq

/-! ## Filesystem model

`get_datasets` and the indexing run only ever touch a two-level layout:
a working root containing one subdirectory per dataset, each holding files.
`FS` is an association list from root path to the list of
(subdirectory name, file names) pairs; a directory exists iff it has an
entry. -/

abbrev FS := List (String × List (String × List String))

/-- Lookup the subdirectory listing of a root path (`os.listdir(working_dir)`
with `os.path.isdir` filtering folded in: only subdirectories are modelled,
which is equivalent for the operations the code performs). -/
def fsLookup : FS → String → Option (List (String × List String))
  | [], _ => none
  | (r, subs) :: rest, root => if r = root then some subs else fsLookup rest root

/-- Add `file` to subdirectory `name` of a listing, creating the
subdirectory if absent. -/
def updSub : List (String × List String) → String → String → List (String × List String)
  | [], name, file => [(name, [file])]
  | (m, fls) :: rest, name, file =>
    if m = name then (m, file :: fls) :: rest
    else (m, fls) :: updSub rest name file

/-- Add `file` to `root/name/`, creating directories as needed. -/
def updRoot : FS → String → String → String → FS
  | [], root, name, file => [(root, [(name, [file])])]
  | (r, subs) :: rest, root, name, file =>
    if r = root then (r, updSub subs name file) :: rest
    else (r, subs) :: updRoot rest root name file

/-- `f.endswith('.parquet')` (services.py line 353), computed on the
character list. -/
def endsWithParquet (f : String) : Bool :=
  (".parquet").data.isSuffixOf f.data

/-! ## Service operations -/

/-- The error string returned by `query` when no retrieval engine is active
(services.py line 219); the spec calls this the `IndexNotBuilt` failure
kind. -/
def indexNotBuiltError : String := "索引未构建，请先处理文档"

/-- `_notify_progress` (services.py lines 73-82): overwrite `progress`,
`current_step` and `message`; the registered callbacks are invoked with
exceptions caught and logged, so they do not affect the state. -/
def notify (s : ServiceState) (p : ℚ) (step msg : String) : ServiceState :=
  { s with progress :=
      { s.progress with progress := p, current_step := step, message := msg } }

/-- `_notify_progress` threaded together with the ghost trace of the progress
values passed to it, in call order. -/
def noteProgress (st : ServiceState × List ℚ) (p : ℚ) (step msg : String) :
    ServiceState × List ℚ :=
  (notify st.1 p step msg, st.2 ++ [p])

/-- `load_embedding_model` (services.py lines 88-93): construct and memoize on
first call, return the memoized handle afterwards regardless of the path. -/
def load_embedding_model (s : ServiceState) (model_path : String) :
    EmbModel × ServiceState :=
  match s._embedding_model with
  | some m => (m, s)
  | none =>
    let s1 := notify s (1/10) ("loading_embedding") ("正在加载嵌入模型...")
    let m : EmbModel := { path := model_path, uid := s.embConstructCount }
    (m, { s1 with _embedding_model := some m,
                  embConstructCount := s.embConstructCount + 1 })

/-- `load_llm_model` (services.py lines 95-100), analogous. -/
def load_llm_model (s : ServiceState) (model_name : String) :
    LLMModel × ServiceState :=
  match s._llm_model with
  | some m => (m, s)
  | none =>
    let s1 := notify s (1/5) ("loading_llm") ("正在加载LLM模型...")
    let m : LLMModel := { name := model_name, uid := s.llmConstructCount }
    (m, { s1 with _llm_model := some m,
                  llmConstructCount := s.llmConstructCount + 1 })

/-- Abstraction of `hashlib.md5(passage.encode()).hexdigest()[:8]`
(services.py line 238): a deterministic fingerprint of the passage content.
No claim depends on the hash value itself, only on determinism, so the
identity function stands in for the digest. -/
def fingerprint (passage : String) : String := passage

/-- The failure dictionary built in the `except` branch of `query`
(services.py lines 293-297): only `success`, `question` and `error` keys. -/
def queryFailure (question msg : String) : QueryResult :=
  { success := false, question := some question, answer := none,
    thought := none, retrieved_documents := [], retrieval_time_ms := none,
    llm_time_ms := none, total_time_ms := none, error := some msg }

/-- `self.progress.status = "error"` (services.py line 291). -/
def setStatusError (s : ServiceState) : ServiceState :=
  { s with progress := { s.progress with status := "error" } }

/-- `self.progress.status = "completed"` (services.py line 277). -/
def setStatusCompleted (s : ServiceState) : ServiceState :=
  { s with progress := { s.progress with status := "completed" } }

/-- The user prompt built in `query` (services.py lines 251-254): the top
`top_k` retrieved passages in ranked order, newline-terminated, followed by
the question — the only place `top_k` is consumed. -/
def promptUser (rr : RetrievalResult) (top_k : Nat) (question : String) :
    String :=
  ((rr.sorted_passage.take top_k).foldl (fun acc p => acc ++ p ++ "\n") (""))
    ++ ("Question: ") ++ question ++ ("\n Thought: ")

/-- `query` (services.py lines 201-297).  `retrieveRes` is the outcome of the
external `self._rag_model.retrieve(...)[0]` call, and `infer` gives the
outcome of `self._llm_model.infer(messages)` as a function of the user prompt
sent; `Except.error msg` means the call raised an exception whose string form
is `msg` (a missing LLM handle surfaces the same way, as the `AttributeError`
the attribute access raises).  The function is total: every branch, including
both exception branches, returns a `QueryResult`. -/
def query (s : ServiceState) (question : String) (top_k : Nat) (use_llm : Bool)
    (retrieveRes : Except String RetrievalResult)
    (infer : String → Except String String) : QueryResult × ServiceState :=
  match s._rag_model with
  | none =>
    ({ success := false, question := none, answer := none, thought := none,
       retrieved_documents := [], retrieval_time_ms := none,
       llm_time_ms := none, total_time_ms := none,
       error := some indexNotBuiltError }, s)
  | some _ =>
    let sq := { s with progress := { s.progress with status := "querying" } }
    match retrieveRes with
    | Except.error msg => (queryFailure question msg, setStatusError sq)
    | Except.ok rr =>
      let docs := (rr.sorted_passage.zip rr.sorted_passage_scores).map
        (fun pr => { content := pr.1, score := pr.2,
                     passage_id := fingerprint pr.1 : RetrievedDocument })
      if use_llm then
        match infer (promptUser rr top_k question) with
        | Except.error msg => (queryFailure question msg, setStatusError sq)
        | Except.ok response =>
          let pa := parseResponse response
          ({ success := true, question := some question,
             answer := some pa.2, thought := some pa.1,
             retrieved_documents := docs, retrieval_time_ms := some (),
             llm_time_ms := some (), total_time_ms := some (),
             error := none }, setStatusCompleted sq)
      else
        ({ success := true, question := some question, answer := none,
           thought := none, retrieved_documents := docs,
           retrieval_time_ms := some (), llm_time_ms := none,
           total_time_ms := some (), error := none }, setStatusCompleted sq)

/-- The loop body of `batch_query` (services.py lines 306-309): run `query`
for each question in input order, threading the state; `oracle i` supplies the
outcomes of the external calls made while serving question `i`. -/
def batchGo (top_k : Nat) (use_llm : Bool)
    (oracle : Nat →
      Except String RetrievalResult × (String → Except String String)) :
    ServiceState → Nat → List String → List QueryResult × ServiceState
  | s, _, [] => ([], s)
  | s, i, q :: rest =>
    let step := query s q top_k use_llm (oracle i).1 (oracle i).2
    let restRes := batchGo top_k use_llm oracle step.2 (i + 1) rest
    (step.1 :: restRes.1, restRes.2)

/-- `batch_query` (services.py lines 299-318). -/
def batch_query (s : ServiceState) (questions : List String) (top_k : Nat)
    (use_llm : Bool)
    (oracle : Nat →
      Except String RetrievalResult × (String → Except String String)) :
    BatchResult × ServiceState :=
  let r := batchGo top_k use_llm oracle s 0 questions
  ({ success := true, results := r.1, questions_count := questions.length },
   r.2)

/-- The outcome of the external engine calls made inside one
`process_documents` run: `LinearRAG(global_config=...)` construction may
raise, then `index(passages)` may raise. -/
inductive EngineOutcome where
  | createFail (msg : String)
  | indexFail (msg : String)
  | ok
deriving DecidableEq

/-- Modelled from the spec: the external retrieval engine's `index(passages)`
(the `LinearRAG` class is not part of this repository's sources).  Per the
spec, a dataset is "created by the Indexing Orchestrator on first successful
index build" and is persisted as "one directory per dataset name under a
configured working root" containing "at least one recognized index-artifact
file"; discovery recognizes `.parquet` files.  On success, `index` therefore
writes a `.parquet` artifact into `working_dir/dataset_name` of the engine's
own configuration.  With no configuration the success outcome is unreachable
(the real engine would raise), so the filesystem is left unchanged. -/
def engineIndexFS (cfg : Option LinearRAGConfig) (fs : FS) : FS :=
  match cfg with
  | some c => updRoot fs c.working_dir c.dataset_name ("index.parquet")
  | none => fs

/-- `process_documents` (services.py lines 139-199).  Returns the result
dictionary, the final service state, the final filesystem, and the ghost
trace of progress values passed to `_notify_progress` during the run.
`now` is the abstract `datetime.now()` timestamp. -/
def process_documents (s : ServiceState) (fs : FS) (now : Nat)
    (passages : List String) (dataset_name : String)
    (config : Option LinearRAGConfig) (outcome : EngineOutcome) :
    RunResult × ServiceState × FS × List ℚ :=
  let s0 := { s with progress :=
    { s.progress with status := "running", start_time := some now,
                      total_steps := 4 } }
  let st1 := noteProgress (s0, []) (1/20) ("initializing")
    (("正在初始化数据集: ") ++ dataset_name)
  let cfg := match config with
    | some c => some c
    | none => s._config
  let st2 := ({ st1.1 with _current_dataset := some dataset_name }, st1.2)
  let st3 := noteProgress st2 (3/20) ("creating_rag")
    ("正在创建LinearRAG实例...")
  match outcome with
  | EngineOutcome.createFail msg =>
    let se := { st3.1 with progress :=
      { st3.1.progress with status := "error", error := some msg } }
    let st4 := noteProgress (se, st3.2) 0 ("error") (("处理失败: ") ++ msg)
    ({ success := false, documents_count := none, dataset_name := none,
       error := some msg }, st4.1, fs, st4.2)
  | EngineOutcome.indexFail msg =>
    let st4 := ({ st3.1 with _rag_model := some { global_config := cfg } },
                st3.2)
    let st5 := noteProgress st4 (1/4) ("indexing") ("正在索引文档...")
    let se := { st5.1 with progress :=
      { st5.1.progress with status := "error", error := some msg } }
    let st6 := noteProgress (se, st5.2) 0 ("error") (("处理失败: ") ++ msg)
    ({ success := false, documents_count := none, dataset_name := none,
       error := some msg }, st6.1, fs, st6.2)
  | EngineOutcome.ok =>
    let st4 := ({ st3.1 with _rag_model := some { global_config := cfg } },
                st3.2)
    let st5 := noteProgress st4 (1/4) ("indexing") ("正在索引文档...")
    let fs2 := engineIndexFS cfg fs
    let st6 := noteProgress st5 1 ("completed") ("索引完成!")
    let st7 := ({ st6.1 with progress :=
      { st6.1.progress with status := "completed" } }, st6.2)
    ({ success := true, documents_count := some passages.length,
       dataset_name := some dataset_name, error := none }, st7.1, fs2, st7.2)

/-- `get_datasets` (services.py lines 339-356): returns `[]` with no active
configuration or a missing working root; otherwise the names of the
subdirectories of the active configuration's working root that contain at
least one `.parquet` file. -/
def get_datasets (s : ServiceState) (fs : FS) : List String :=
  match s._config with
  | none => []
  | some c =>
    match fsLookup fs c.working_dir with
    | none => []
    | some subs =>
      (subs.filter (fun x => x.2.any endsWithParquet)).map (fun x => x.1)

/-- `clear` (services.py lines 358-363): reset the engine, configuration and
dataset name, and install a fresh `ProgressInfo`.  The cached model handles
(and the instrumentation counters) are not touched by the code. -/
def clear (s : ServiceState) : ServiceState :=
  { s with _rag_model := none, _config := none, _current_dataset := none,
           progress := ProgressInfo.init }

/-! ## Concrete fixtures -/

/-- The default embedding model of the API configuration. -/
def embEx : EmbModel := { path := "model/all-mpnet-base-v2", uid := 0 }

/-- The default language model of the API configuration. -/
def llmEx : LLMModel := { name := "gpt-4o-mini", uid := 0 }

/-- A configuration for dataset `wiki5` with the defaults of
`initialize_config`. -/
def cfgEx : LinearRAGConfig :=
  { dataset_name := "wiki5", embedding_model := embEx,
    spacy_model := "en_core_web_trf", llm_model := llmEx,
    working_dir := "./import", max_workers := 4, retrieval_top_k := 5,
    max_iterations := 3, top_k_sentence := 1, passage_ratio := 3/2,
    passage_node_weight := 1/20, damping := 1/2, iteration_threshold := 1/2,
    batch_size := 128 }

/-- A service state with an active retrieval engine. -/
def engineState : ServiceState :=
  { initialService with _rag_model := some { global_config := some cfgEx } }

/-- An engine retrieval result ranking two passages. -/
def rrTwo : RetrievalResult :=
  { sorted_passage := ["doc1 text", "doc2 text"],
    sorted_passage_scores := [9/10, 1/10] }

/-- A filesystem whose working root already holds an indexed dataset. -/
def fsWithData : FS := [("./import", [("wiki5", ["index.parquet"])])]

/-- A fully populated service state (engine, config, dataset and both model
caches). -/
def loadedState : ServiceState :=
  { progress := ProgressInfo.init,
    _rag_model := some { global_config := some cfgEx },
    _config := some cfgEx, _embedding_model := some embEx,
    _llm_model := some llmEx, _current_dataset := some ("wiki5"),
    embConstructCount := 1, llmConstructCount := 1 }

/-! ## Parsing lemmas -/

theorem splitOnFirst_append (pat post : List Char) (hne : pat ≠ []) :
    ∀ pre : List Char,
      (∀ i, i < pre.length →
        pat.isPrefixOf ((pre ++ pat ++ post).drop i) = false) →
      splitOnFirst pat (pre ++ pat ++ post) = some (pre, post) := by
  intro pre
  induction pre with
  | nil =>
    intro _
    obtain ⟨a, t, rfl⟩ : ∃ a t, pat = a :: t := by
      cases pat with
      | nil => exact absurd rfl hne
      | cons a t => exact ⟨a, t, rfl⟩
    have hpre : (a :: t).isPrefixOf (a :: t ++ post) = true :=
      List.isPrefixOf_iff_prefix.mpr (List.prefix_append _ _)
    simp only [List.nil_append, List.cons_append] at hpre ⊢
    rw [splitOnFirst, if_pos hpre]
    have hdrop : ((a :: t) ++ post).drop (a :: t).length = post :=
      List.drop_left _ _
    simp only [List.cons_append] at hdrop
    rw [hdrop]
  | cons c pre ih =>
    intro h
    have h0 : pat.isPrefixOf (c :: (pre ++ pat ++ post)) = false := by
      have := h 0 (by simp)
      simpa using this
    have hrest : ∀ i, i < pre.length →
        pat.isPrefixOf ((pre ++ pat ++ post).drop i) = false := by
      intro i hi
      have := h (i + 1) (by simp; omega)
      simpa [List.drop_succ_cons] using this
    have hsplit := ih hrest
    simp only [List.cons_append]
    rw [splitOnFirst, if_neg (by rw [h0]; decide), hsplit]

theorem splitOnFirst_eq_none (pat : List Char) :
    ∀ l : List Char, (∀ i, pat.isPrefixOf (l.drop i) = false) →
      splitOnFirst pat l = none := by
  intro l
  induction l with
  | nil => intro _; rfl
  | cons c rest ih =>
    intro h
    have h0 : pat.isPrefixOf (c :: rest) = false := by simpa using h 0
    have hrest : ∀ i, pat.isPrefixOf (rest.drop i) = false := by
      intro i
      simpa [List.drop_succ_cons] using h (i + 1)
    rw [splitOnFirst, if_neg (by rw [h0]; decide), ih hrest]

theorem not_contains_isPrefixOf (pat l : List Char) (hne : pat ≠ [])
    (h : containsSub pat l = false) :
    ∀ i, pat.isPrefixOf (l.drop i) = false := by
  intro i
  by_cases hi : i ≤ l.length
  · cases hb : pat.isPrefixOf (l.drop i) with
    | false => rfl
    | true =>
      exfalso
      have : containsSub pat l = true := by
        unfold containsSub
        exact List.any_eq_true.mpr
          ⟨i, List.mem_range.mpr (by omega), hb⟩
      rw [this] at h
      exact Bool.true_eq_false.mp h
  · have hd : l.drop i = [] := List.drop_eq_nil_of_le (by omega)
    rw [hd]
    cases pat with
    | nil => exact absurd rfl hne
    | cons a t => rfl

/-! ## Filesystem lemmas -/

theorem fsLookup_updRoot (fs : FS) (root n f : String) :
    fsLookup (updRoot fs root n f) root =
      some (updSub ((fsLookup fs root).getD []) n f) := by
  induction fs with
  | nil => simp [updRoot, fsLookup, updSub]
  | cons hd tl ih =>
    obtain ⟨r, subs⟩ := hd
    by_cases h : r = root
    · subst h
      simp [updRoot, fsLookup]
    · simp [updRoot, fsLookup, h, ih]

theorem mem_updSub (subs : List (String × List String)) (n f : String) :
    ∃ fls, (n, fls) ∈ updSub subs n f ∧ f ∈ fls := by
  induction subs with
  | nil => exact ⟨[f], by simp [updSub], by simp⟩
  | cons hd tl ih =>
    obtain ⟨m, fl⟩ := hd
    by_cases h : m = n
    · subst h
      exact ⟨f :: fl, by simp [updSub], by simp⟩
    · obtain ⟨fls, hm, hf⟩ := ih
      exact ⟨fls, by simp [updSub, h, hm], hf⟩

theorem name_mem_listing (subs : List (String × List String)) (n : String)
    (fls : List String) (hm : (n, fls) ∈ subs)
    (hf : fls.any endsWithParquet = true) :
    n ∈ (subs.filter (fun x => x.2.any endsWithParquet)).map
      (fun x => x.1) :=
  List.mem_map.mpr ⟨(n, fls), List.mem_filter.mpr ⟨hm, hf⟩, rfl⟩

/-! ## Claims -/

/-- C10: whenever no configuration is active, `get_datasets` returns the
empty list, for every filesystem — even one whose working root holds dataset
directories with recognized artifact files; discovery happens only relative
to the working root of the active configuration. -/
theorem get_datasets_requires_config (s : ServiceState) (fs : FS)
    (h : s._config = none) : get_datasets s fs = [] := by
  unfold get_datasets
  rw [h]

theorem get_datasets_requires_config_witness :
    get_datasets initialService fsWithData = [] :=
  get_datasets_requires_config initialService fsWithData rfl

/-- C9 counterexample: `clear` does not reset the cached embedding-model and
language-model handles — on a fully loaded state they survive `clear`, so the
claim that every field is reset to its empty state is false. -/
theorem clear_keeps_model_caches_cex :
    (clear loadedState)._embedding_model = some embEx ∧
    (clear loadedState)._llm_model = some llmEx ∧
    some embEx ≠ (none : Option EmbModel) := by
  refine ⟨rfl, rfl, ?_⟩
  decide

/-- C9 (amended): `clear` resets the active retrieval engine, the active
configuration and the active dataset name, and installs a fresh
`ProgressInfo`; the cached embedding-model and language-model handles are
retained unchanged. -/
theorem clear_resets_context (s : ServiceState) :
    (clear s)._rag_model = none ∧ (clear s)._config = none ∧
    (clear s)._current_dataset = none ∧
    (clear s).progress = ProgressInfo.init ∧
    (clear s)._embedding_model = s._embedding_model ∧
    (clear s)._llm_model = s._llm_model :=
  ⟨rfl, rfl, rfl, rfl, rfl, rfl⟩

theorem clear_resets_context_witness :
    (clear loadedState)._rag_model = none ∧
    (clear loadedState)._config = none ∧
    (clear loadedState)._current_dataset = none ∧
    (clear loadedState).progress = ProgressInfo.init ∧
    (clear loadedState)._embedding_model = loadedState._embedding_model ∧
    (clear loadedState)._llm_model = loadedState._llm_model :=
  clear_resets_context loadedState

/-- C8: at the failing input — an active engine reporting two ranked
passages, `top_k = 1`, `use_llm = false` — `query` returns two
`RetrievedDocument` entries, not one: the returned document list has one
entry per engine-reported passage and is not bounded by `top_k`, which is
consumed only by the prompt construction (`promptUser`). -/
theorem query_topk_not_bounding :
    (query engineState ("What is doc1 about?") 1 false (Except.ok rrTwo)
      (fun _ => Except.error (""))).1.retrieved_documents.length = 2 ∧
    (∀ k : Nat,
      (query engineState ("What is doc1 about?") k false (Except.ok rrTwo)
        (fun _ => Except.error (""))).1.retrieved_documents =
      (query engineState ("What is doc1 about?") 1 false (Except.ok rrTwo)
        (fun _ => Except.error (""))).1.retrieved_documents) := by
  constructor
  · rfl
  · intro k
    rfl

/-- C1: `query` never raises past its own boundary — it is a total function
into `QueryResult`: with no active retrieval engine it returns a failure
result carrying the `IndexNotBuilt` error string and leaves the state
untouched; when the retrieval call raises, or the generation call raises, the
exception is caught, `progress.status` becomes `"error"`, and a failure
result carrying the question and the exception message is returned. -/
theorem query_never_raises (s : ServiceState) (q : String) (k : Nat)
    (b : Bool) (rr : Except String RetrievalResult)
    (ir : String → Except String String) :
    (s._rag_model = none →
      (query s q k b rr ir).1.success = false ∧
      (query s q k b rr ir).1.error = some indexNotBuiltError ∧
      (query s q k b rr ir).2 = s) ∧
    (∀ msg, s._rag_model ≠ none → rr = Except.error msg →
      (query s q k b rr ir).1.success = false ∧
      (query s q k b rr ir).1.question = some q ∧
      (query s q k b rr ir).1.error = some msg ∧
      (query s q k b rr ir).2.progress.status = "error") ∧
    (∀ res msg, s._rag_model ≠ none → rr = Except.ok res → b = true →
      ir (promptUser res k q) = Except.error msg →
      (query s q k b rr ir).1.success = false ∧
      (query s q k b rr ir).1.question = some q ∧
      (query s q k b rr ir).1.error = some msg ∧
      (query s q k b rr ir).2.progress.status = "error") := by
  refine ⟨?_, ?_, ?_⟩
  · intro h
    simp [query, h]
  · intro msg hne hrr
    cases hm : s._rag_model with
    | none => exact absurd hm hne
    | some e =>
      subst hrr
      simp [query, hm, queryFailure, setStatusError]
  · intro res msg hne hrr hb hir
    cases hm : s._rag_model with
    | none => exact absurd hm hne
    | some e =>
      subst hrr
      subst hb
      simp [query, hm, hir, queryFailure, setStatusError]

theorem query_never_raises_witness :
    (query initialService ("q") 5 true (Except.error ("boom"))
      (fun _ => Except.error ("x"))).1.success = false ∧
    (query initialService ("q") 5 true (Except.error ("boom"))
      (fun _ => Except.error ("x"))).1.error = some indexNotBuiltError ∧
    (query initialService ("q") 5 true (Except.error ("boom"))
      (fun _ => Except.error ("x"))).2 = initialService :=
  (query_never_raises initialService ("q") 5 true (Except.error ("boom"))
    (fun _ => Except.error ("x"))).1 rfl

/-- C2: the parse of the generation response never raises (it is a total
function), and: if the response is `pre ++ "Answer:" ++ post` with no
occurrence of the marker starting inside `pre`, the query result's `thought`
is `pre` trimmed and its `answer` is `post` trimmed; if the response contains
no marker at all, `thought` is empty and `answer` is the whole response
trimmed; and `query` reports exactly the parse's two components as the
result's `thought` and `answer`. -/
theorem parse_llm_response_spec :
    (∀ pre post : List Char,
      (∀ i, i < pre.length →
        answerMarker.isPrefixOf ((pre ++ answerMarker ++ post).drop i)
          = false) →
      parseResponse (String.mk (pre ++ answerMarker ++ post)) =
        (String.mk (pyStrip pre), String.mk (pyStrip post))) ∧
    (∀ r : String, containsSub answerMarker r.data = false →
      parseResponse r = ("", String.mk (pyStrip r.data))) ∧
    (∀ (s : ServiceState) (e : LinearRAG) (q resp : String) (k : Nat)
      (rr : RetrievalResult), s._rag_model = some e →
      (query s q k true (Except.ok rr)
        (fun _ => Except.ok resp)).1.thought =
          some (parseResponse resp).1 ∧
      (query s q k true (Except.ok rr)
        (fun _ => Except.ok resp)).1.answer =
          some (parseResponse resp).2) := by
  refine ⟨?_, ?_, ?_⟩
  · intro pre post h
    have hmk : (String.mk (pre ++ answerMarker ++ post)).data =
        pre ++ answerMarker ++ post := rfl
    have hs := splitOnFirst_append answerMarker post (by decide) pre h
    simp only [parseResponse, hmk, hs]
  · intro r h
    have hs := splitOnFirst_eq_none answerMarker r.data
      (not_contains_isPrefixOf answerMarker r.data (by decide) h)
    simp only [parseResponse, hs]
  · intro s e q resp k rr hm
    constructor
    · simp [query, hm]
    · simp [query, hm]

theorem parse_llm_response_spec_witness :
    parseResponse (String.mk (("Thought: reasoning ").data ++ answerMarker
      ++ (" 42 ").data)) =
      (String.mk (pyStrip (("Thought: reasoning ").data)),
       String.mk (pyStrip ((" 42 ").data))) :=
  parse_llm_response_spec.1 (("Thought: reasoning ").data) ((" 42 ").data)
    (by decide)

/-- Once a handle is cached, `load_embedding_model` returns it unchanged and
does not construct. -/
theorem load_embedding_model_cached (t : ServiceState) (m : EmbModel)
    (p : String) (ht : t._embedding_model = some m) :
    load_embedding_model t p = (m, t) := by
  simp [load_embedding_model, ht]

/-- C3: after a first successful `load_embedding_model` call on a state with
an empty cache, any subsequent call — with the same or a different path —
returns the very same memoized handle and the very same state (so the
construction counter no longer moves); the first call invoked construction
exactly once; and in general any call on a state whose cache is filled
returns the cached handle without constructing. -/
theorem embedding_model_memoized (s : ServiceState) (p1 p2 : String)
    (h : s._embedding_model = none) :
    load_embedding_model (load_embedding_model s p1).2 p2 =
      ((load_embedding_model s p1).1, (load_embedding_model s p1).2) ∧
    (load_embedding_model s p1).2.embConstructCount
      = s.embConstructCount + 1 ∧
    (∀ (t : ServiceState) (m : EmbModel) (p : String),
      t._embedding_model = some m →
      load_embedding_model t p = (m, t)) := by
  refine ⟨?_, ?_, fun t m p ht => load_embedding_model_cached t m p ht⟩
  · have h1 : (load_embedding_model s p1).2._embedding_model =
        some (load_embedding_model s p1).1 := by
      simp [load_embedding_model, h]
    exact load_embedding_model_cached _ _ _ h1
  · simp [load_embedding_model, h]

theorem embedding_model_memoized_witness :
    load_embedding_model
      (load_embedding_model initialService ("model/all-mpnet-base-v2")).2
      ("some/other/path") =
      ((load_embedding_model initialService ("model/all-mpnet-base-v2")).1,
       (load_embedding_model initialService ("model/all-mpnet-base-v2")).2) ∧
    (load_embedding_model initialService
      ("model/all-mpnet-base-v2")).2.embConstructCount =
      initialService.embConstructCount + 1 :=
  ⟨(embedding_model_memoized initialService ("model/all-mpnet-base-v2")
      ("some/other/path") rfl).1,
   (embedding_model_memoized initialService ("model/all-mpnet-base-v2")
      ("some/other/path") rfl).2.1⟩

/-- C6: with `use_llm = false` against an active engine and a well-formed
engine result (equal-length passage and score lists), the query result has no
answer, no thought and no generation-time field, and the returned documents
report exactly the engine's passages and scores in the engine's order,
unmodified. -/
theorem query_no_llm_shape (s : ServiceState) (e : LinearRAG) (q : String)
    (k : Nat) (rres : RetrievalResult) (ir : String → Except String String)
    (he : s._rag_model = some e)
    (hlen : rres.sorted_passage.length = rres.sorted_passage_scores.length) :
    (query s q k false (Except.ok rres) ir).1.success = true ∧
    (query s q k false (Except.ok rres) ir).1.answer = none ∧
    (query s q k false (Except.ok rres) ir).1.thought = none ∧
    (query s q k false (Except.ok rres) ir).1.llm_time_ms = none ∧
    (query s q k false (Except.ok rres) ir).1.retrieved_documents.map
      (fun d => d.content) = rres.sorted_passage ∧
    (query s q k false (Except.ok rres) ir).1.retrieved_documents.map
      (fun d => d.score) = rres.sorted_passage_scores := by
  refine ⟨by simp [query, he], by simp [query, he], by simp [query, he],
    by simp [query, he], ?_, ?_⟩
  · simp [query, he, List.map_map]
    exact List.map_fst_zip _ _ (le_of_eq hlen)
  · simp [query, he, List.map_map]
    exact List.map_snd_zip _ _ (le_of_eq hlen.symm)

theorem query_no_llm_shape_witness :
    (query engineState ("What is doc1 about?") 5 false (Except.ok rrTwo)
      (fun _ => Except.error (""))).1.answer = none ∧
    (query engineState ("What is doc1 about?") 5 false (Except.ok rrTwo)
      (fun _ => Except.error (""))).1.thought = none ∧
    (query engineState ("What is doc1 about?") 5 false (Except.ok rrTwo)
      (fun _ => Except.error (""))).1.llm_time_ms = none ∧
    (query engineState ("What is doc1 about?") 5 false (Except.ok rrTwo)
      (fun _ => Except.error (""))).1.retrieved_documents.map
      (fun d => d.content) = rrTwo.sorted_passage :=
  ⟨(query_no_llm_shape engineState { global_config := some cfgEx }
      ("What is doc1 about?") 5 rrTwo (fun _ => Except.error ("")) rfl
      rfl).2.1,
   (query_no_llm_shape engineState { global_config := some cfgEx }
      ("What is doc1 about?") 5 rrTwo (fun _ => Except.error ("")) rfl
      rfl).2.2.1,
   (query_no_llm_shape engineState { global_config := some cfgEx }
      ("What is doc1 about?") 5 rrTwo (fun _ => Except.error ("")) rfl
      rfl).2.2.2.1,
   (query_no_llm_shape engineState { global_config := some cfgEx }
      ("What is doc1 about?") 5 rrTwo (fun _ => Except.error ("")) rfl
      rfl).2.2.2.2.1⟩

/-- A state whose only non-empty field is an installed active
configuration. -/
def sWithCfg : ServiceState :=
  { initialService with _config := some cfgEx }

/-- C7 counterexample: an indexing run whose `index` call raises emits the
progress trace `[0.05, 0.15, 0.25, 0]` — the final error update resets
`progress` to 0 in the middle of the same operation, so the trace is not
monotonically non-decreasing, and the reset does not coincide with the start
of a new operation (the operation ends in status `"error"`). -/
theorem progress_reset_on_error_cex :
    (process_documents engineState [] 0 [("p")] ("wiki5") (some cfgEx)
      (EngineOutcome.indexFail ("disk full"))).2.2.2
      = [1/20, 3/20, 1/4, 0] ∧
    ¬ List.Chain' (fun a b => a ≤ b)
      (process_documents engineState [] 0 [("p")] ("wiki5") (some cfgEx)
        (EngineOutcome.indexFail ("disk full"))).2.2.2 ∧
    (process_documents engineState [] 0 [("p")] ("wiki5") (some cfgEx)
      (EngineOutcome.indexFail ("disk full"))).2.1.progress.progress = 0 ∧
    (process_documents engineState [] 0 [("p")] ("wiki5") (some cfgEx)
      (EngineOutcome.indexFail ("disk full"))).2.1.progress.status
      = "error" := by
  refine ⟨rfl, ?_, rfl, rfl⟩
  rw [show (process_documents engineState [] 0 [("p")] ("wiki5")
    (some cfgEx) (EngineOutcome.indexFail ("disk full"))).2.2.2
    = [1/20, 3/20, 1/4, 0] from rfl]
  norm_num [List.chain'_cons]

/-- C7 (amended): every progress value emitted during one `process_documents`
operation lies in `[0, 1]`, and in an operation that completes successfully
the emitted trace (`[0.05, 0.15, 0.25, 1.0]`) is monotonically
non-decreasing; only the failure path ends the operation by resetting
progress to 0 together with the error update. -/
theorem progress_within_operation (s : ServiceState) (fs : FS) (now : Nat)
    (passages : List String) (n : String) (cfg : Option LinearRAGConfig) :
    (∀ outcome : EngineOutcome,
      ∀ p ∈ (process_documents s fs now passages n cfg outcome).2.2.2,
        0 ≤ p ∧ p ≤ 1) ∧
    List.Chain' (fun a b => a ≤ b)
      (process_documents s fs now passages n cfg EngineOutcome.ok).2.2.2 := by
  constructor
  · intro outcome p hp
    cases outcome with
    | createFail msg =>
      rw [show (process_documents s fs now passages n cfg
        (EngineOutcome.createFail msg)).2.2.2 = [1/20, 3/20, 0] from rfl]
        at hp
      simp only [List.mem_cons, List.not_mem_nil, or_false] at hp
      rcases hp with rfl | rfl | rfl <;> norm_num
    | indexFail msg =>
      rw [show (process_documents s fs now passages n cfg
        (EngineOutcome.indexFail msg)).2.2.2 = [1/20, 3/20, 1/4, 0] from rfl]
        at hp
      simp only [List.mem_cons, List.not_mem_nil, or_false] at hp
      rcases hp with rfl | rfl | rfl | rfl <;> norm_num
    | ok =>
      rw [show (process_documents s fs now passages n cfg
        EngineOutcome.ok).2.2.2 = [1/20, 3/20, 1/4, 1] from rfl] at hp
      simp only [List.mem_cons, List.not_mem_nil, or_false] at hp
      rcases hp with rfl | rfl | rfl | rfl <;> norm_num
  · rw [show (process_documents s fs now passages n cfg
      EngineOutcome.ok).2.2.2 = [1/20, 3/20, 1/4, 1] from rfl]
    norm_num [List.chain'_cons]

theorem progress_within_operation_witness :
    (0 : ℚ) ≤ 1/20 ∧ (1/20 : ℚ) ≤ 1 :=
  (progress_within_operation initialService [] 0 [("p")] ("d") none).1
    EngineOutcome.ok (1/20)
    (by rw [show (process_documents initialService [] 0 [("p")] ("d") none
        EngineOutcome.ok).2.2.2 = [1/20, 3/20, 1/4, 1] from rfl]
        exact List.mem_cons_self _ _)

/-- `query` never changes which retrieval engine is active. -/
theorem query_preserves_rag (s : ServiceState) (q : String) (k : Nat)
    (b : Bool) (rr : Except String RetrievalResult)
    (ir : String → Except String String) :
    (query s q k b rr ir).2._rag_model = s._rag_model := by
  cases hm : s._rag_model with
  | none => simp [query, hm]
  | some e =>
    cases rr with
    | error msg => simp [query, hm, setStatusError]
    | ok res =>
      cases b with
      | false => simp [query, hm, setStatusCompleted]
      | true =>
        cases hir : ir (promptUser res k q) with
        | error msg => simp [query, hm, hir, setStatusError]
        | ok resp => simp [query, hm, hir, setStatusCompleted]

/-- With an active engine, every branch of `query` records the question in
the result. -/
theorem query_question_some (s : ServiceState) (q : String) (k : Nat)
    (b : Bool) (rr : Except String RetrievalResult)
    (ir : String → Except String String) (h : s._rag_model ≠ none) :
    (query s q k b rr ir).1.question = some q := by
  cases hm : s._rag_model with
  | none => exact absurd hm h
  | some e =>
    cases rr with
    | error msg => simp [query, hm, queryFailure]
    | ok res =>
      cases b with
      | false => simp [query, hm]
      | true =>
        cases hir : ir (promptUser res k q) with
        | error msg => simp [query, hm, hir, queryFailure]
        | ok resp => simp [query, hm, hir]

theorem batchGo_aligned (k : Nat) (b : Bool)
    (oracle : Nat →
      Except String RetrievalResult × (String → Except String String)) :
    ∀ (qs : List String) (s : ServiceState) (i : Nat),
      (batchGo k b oracle s i qs).1.length = qs.length ∧
      (s._rag_model ≠ none →
        (batchGo k b oracle s i qs).1.map (fun r => r.question)
          = qs.map (fun q => some q)) := by
  intro qs
  induction qs with
  | nil => exact fun s i => ⟨rfl, fun _ => rfl⟩
  | cons q rest ih =>
    intro s i
    constructor
    · have hlen := (ih (query s q k b (oracle i).1 (oracle i).2).2 (i + 1)).1
      simp [batchGo, hlen]
    · intro h
      have hpres := query_preserves_rag s q k b (oracle i).1 (oracle i).2
      have hq := query_question_some s q k b (oracle i).1 (oracle i).2 h
      have hrest := (ih (query s q k b (oracle i).1 (oracle i).2).2
        (i + 1)).2 (by rw [hpres]; exact h)
      simp [batchGo, hq, hrest]

/-- C4 (amended): `batch_query` always returns exactly one result per
question, in input order, and a failing individual question does not abort
the batch; whenever a retrieval engine is active, the i-th result's
`question` field equals the i-th question.  (Without an active engine every
per-question failure result carries no `question` field — see the
counterexample.) -/
theorem batch_results_aligned (s : ServiceState) (qs : List String) (k : Nat)
    (b : Bool)
    (oracle : Nat →
      Except String RetrievalResult × (String → Except String String)) :
    (batch_query s qs k b oracle).1.results.length = qs.length ∧
    (s._rag_model ≠ none →
      (batch_query s qs k b oracle).1.results.map (fun r => r.question)
        = qs.map (fun q => some q)) :=
  batchGo_aligned k b oracle qs s 0

theorem batch_results_aligned_witness :
    (batch_query engineState [("q1"), ("q2")] 5 true
      (fun _ => (Except.error ("retrieval down"),
        fun _ => Except.error ("llm down")))).1.results.map
      (fun r => r.question) = [some ("q1"), some ("q2")] :=
  (batch_results_aligned engineState [("q1"), ("q2")] 5 true
    (fun _ => (Except.error ("retrieval down"),
      fun _ => Except.error ("llm down")))).2 (by decide)

/-- C4 counterexample: with no active engine, the batch still yields one
result per question, but the failure results carry no `question` field, so
the i-th result's question does not equal `Q[i]`. -/
theorem batch_question_missing_cex :
    (batch_query initialService [("q1")] 5 true
      (fun _ => (Except.error ("down"),
        fun _ => Except.error ("down")))).1.results.map
      (fun r => r.question) = [none] ∧
    (none : Option String) ≠ some ("q1") :=
  ⟨rfl, by decide⟩

/-- C5 counterexample: starting from a fresh service (no active
configuration), `run(P, "wiki5", cfg)` completes with status `"completed"`
and the engine persists the artifacts, yet `list()` returns the empty list —
`process_documents` never installs the passed configuration as the active
one, and `get_datasets` returns `[]` whenever no configuration is active —
so the listing does not include `"wiki5"`. -/
theorem run_completed_not_listed_cex :
    (process_documents initialService [] 0 [("doc1 text"), ("doc2 text")]
      ("wiki5") (some cfgEx) EngineOutcome.ok).2.1.progress.status
      = "completed" ∧
    get_datasets
      (process_documents initialService [] 0 [("doc1 text"), ("doc2 text")]
        ("wiki5") (some cfgEx) EngineOutcome.ok).2.1
      (process_documents initialService [] 0 [("doc1 text"), ("doc2 text")]
        ("wiki5") (some cfgEx) EngineOutcome.ok).2.2.1 = [] ∧
    ("wiki5") ∉ get_datasets
      (process_documents initialService [] 0 [("doc1 text"), ("doc2 text")]
        ("wiki5") (some cfgEx) EngineOutcome.ok).2.1
      (process_documents initialService [] 0 [("doc1 text"), ("doc2 text")]
        ("wiki5") (some cfgEx) EngineOutcome.ok).2.2.1 := by
  refine ⟨rfl, rfl, ?_⟩
  rw [show get_datasets
      (process_documents initialService [] 0 [("doc1 text"), ("doc2 text")]
        ("wiki5") (some cfgEx) EngineOutcome.ok).2.1
      (process_documents initialService [] 0 [("doc1 text"), ("doc2 text")]
        ("wiki5") (some cfgEx) EngineOutcome.ok).2.2.1
      = ([] : List String) from rfl]
  exact List.not_mem_nil _

/-- C5 (amended): after `run(P, n, cfg)` completes with status `"completed"`,
the engine has persisted an artifact under `cfg`'s working root for
`cfg.dataset_name`, so `list()` includes `n` provided a configuration is
active in the context whose working root equals `cfg`'s and
`cfg.dataset_name = n`; the run itself does not install `cfg` as the active
configuration, and with no active configuration `list()` is empty. -/
theorem run_completed_listed (s : ServiceState) (fs : FS) (now : Nat)
    (passages : List String) (n : String) (cfg c : LinearRAGConfig)
    (hc : s._config = some c) (hw : c.working_dir = cfg.working_dir)
    (hn : cfg.dataset_name = n) (hp : passages ≠ []) :
    (process_documents s fs now passages n (some cfg)
      EngineOutcome.ok).2.1.progress.status = "completed" ∧
    n ∈ get_datasets
      (process_documents s fs now passages n (some cfg)
        EngineOutcome.ok).2.1
      (process_documents s fs now passages n (some cfg)
        EngineOutcome.ok).2.2.1 := by
  refine ⟨rfl, ?_⟩
  have hcfg : (process_documents s fs now passages n (some cfg)
      EngineOutcome.ok).2.1._config = some c := by
    rw [show (process_documents s fs now passages n (some cfg)
      EngineOutcome.ok).2.1._config = s._config from rfl, hc]
  have hfs : (process_documents s fs now passages n (some cfg)
      EngineOutcome.ok).2.2.1
      = updRoot fs cfg.working_dir cfg.dataset_name ("index.parquet") := rfl
  simp only [get_datasets, hcfg, hfs, hw, fsLookup_updRoot]
  obtain ⟨fls, hmem, hf⟩ := mem_updSub
    ((fsLookup fs cfg.working_dir).getD []) cfg.dataset_name
    ("index.parquet")
  subst hn
  exact name_mem_listing _ _ _ hmem
    (List.any_eq_true.mpr ⟨_, hf, by decide⟩)

theorem run_completed_listed_witness :
    (process_documents sWithCfg [] 0 [("doc1 text"), ("doc2 text")]
      ("wiki5") (some cfgEx) EngineOutcome.ok).2.1.progress.status
      = "completed" ∧
    ("wiki5") ∈ get_datasets
      (process_documents sWithCfg [] 0 [("doc1 text"), ("doc2 text")]
        ("wiki5") (some cfgEx) EngineOutcome.ok).2.1
      (process_documents sWithCfg [] 0 [("doc1 text"), ("doc2 text")]
        ("wiki5") (some cfgEx) EngineOutcome.ok).2.2.1 :=
  run_completed_listed sWithCfg [] 0 [("doc1 text"), ("doc2 text")]
    ("wiki5") cfgEx cfgEx rfl rfl rfl (by simp)
